import Mathlib

/-!
Verification of the comm RPC layer in `spyder_kernels/comms/commbase.py`.

The Python module implements a call/reply correlation protocol on top of
message channels ("comms").  We embed the state of a `CommBase` object and
the operations the claims are about:

  * `_comms`           : dict comm_id -> {pickle_protocol, status}
  * `_reply_waitlist`  : dict call_id -> (blocking, callback)
  * `_reply_inbox`     : dict call_id -> {is_error, value, content}

Dictionaries are modelled by association lists whose keys are unique (as in
a Python dict); `dictGet`, `dictSet` and `dictPop` mirror `d[k]`,
`d[k] = v` and `d.pop(k)` / `del d[k]`.

Opaque Python objects travelling in the cloudpickle buffer are `PyData`.
The codec round trip (`cloudpickle.dumps` on the sender followed by
`cloudpickle.loads` on the receiver) is modelled as the identity on
`PyData`; a decode failure is modelled by the `load_exception` argument the
message handlers receive, exactly as in `_comm_message`.

A raised Python exception is a `PyException`: its class (`ErrKind`), the
text of its message, and the traceback frames accumulated while it
propagates (outermost frame first, as `traceback.extract_tb` returns them);
each function an exception propagates through contributes its own frame,
mirroring CPython semantics.
-/

set_option autoImplicit false

/-- Python exception classes that occur in the embedded code.  `exc s`
stands for any other class with name `s` (e.g. `ZeroDivisionError`). -/
inductive ErrKind where
  | commError
  | attributeError
  | exc (class_name : String)
deriving DecidableEq, Repr

/-- A raised Python exception: class, message text (`str` of the
exception), and the traceback frames, outermost first. -/
structure PyException where
  kind : ErrKind
  msg : String
  tb : List String
deriving DecidableEq, Repr

/-- Model of `CommsErrorWrapper.__init__`: captures `sys.exc_info()` at the catch
site: the exception class (`etype`), the exception itself (only its message
text is observable through `str`, stored as `error`), and
`traceback.extract_tb(tb)` (`tb`). -/
structure CommsErrorWrapper where
  call_name : String
  call_id : Nat
  etype : ErrKind
  error : String
  tb : List String
deriving DecidableEq, Repr

/-- A Python object carried in a message buffer: an ordinary object
(indexed abstractly), a `CommsErrorWrapper`, or the tuple
`(load_exception, [])` built by `_handle_remote_call_reply` when the buffer
failed to unpickle. -/
inductive PyData where
  | obj (n : Nat)
  | wrapper (w : CommsErrorWrapper)
  | excPair (e : Nat) (tb : List String)
deriving DecidableEq, Repr

/-- The `settings` dict of a call; absent keys are `none`
(`'blocking' in settings and settings['blocking']` is `getD false`). -/
structure Settings where
  blocking : Option Bool
  send_reply : Option Bool
  timeout : Option Nat
deriving DecidableEq, Repr

/-- The `content` of a `remote_call` message. -/
structure CallDict where
  call_name : String
  call_id : Nat
  settings : Settings
deriving DecidableEq, Repr

/-- The decoded buffer of a `remote_call` message:
`{call_args, call_kwargs}`. -/
structure CallBuffer where
  call_args : List PyData
  call_kwargs : List (String × PyData)
deriving DecidableEq, Repr

/-- The `content` of a `remote_call_reply` message. -/
structure ReplyContent where
  is_error : Bool
  call_id : Nat
  call_name : String
deriving DecidableEq, Repr

/-- Session status of one comm: `'opening'` or `'ready'`. -/
inductive Status where
  | opening
  | ready
deriving DecidableEq, Repr

/-- The per-comm record kept in `self._comms` (minus the transport
handle, which the claims never inspect). -/
structure CommInfo where
  pickle_protocol : Nat
  status : Status
deriving DecidableEq, Repr

/-- One slot of `self._reply_inbox`. -/
structure ReplySlot where
  is_error : Bool
  value : PyData
  content : ReplyContent
deriving DecidableEq, Repr

/-- Model of `d[k]`, returning `none` when the key is absent. -/
def dictGet {κ α : Type} [DecidableEq κ] : List (κ × α) → κ → Option α
  | [], _ => none
  | (k0, v) :: rest, k => if k = k0 then some v else dictGet rest k

/-- Model of `d[k] = v`: replace the binding if the key is present, else append. -/
def dictSet {κ α : Type} [DecidableEq κ] : List (κ × α) → κ → α → List (κ × α)
  | [], k, v => [(k, v)]
  | (k0, v0) :: rest, k, v =>
      if k = k0 then (k, v) :: rest else (k0, v0) :: dictSet rest k v

/-- Model of `d.pop(k)` / `del d[k]` (dict keys are unique, so removing every
binding of `k` removes exactly the one binding a dict can hold). -/
def dictPop {κ α : Type} [DecidableEq κ] : List (κ × α) → κ → List (κ × α)
  | [], _ => []
  | (k0, v0) :: rest, k =>
      if k = k0 then dictPop rest k else (k0, v0) :: dictPop rest k

@[simp] theorem dictGet_nil {κ α : Type} [DecidableEq κ] (k : κ) :
    dictGet ([] : List (κ × α)) k = none := rfl

@[simp] theorem dictGet_cons {κ α : Type} [DecidableEq κ] (k0 : κ) (v : α)
    (rest : List (κ × α)) (k : κ) :
    dictGet ((k0, v) :: rest) k = if k = k0 then some v else dictGet rest k := rfl

@[simp] theorem dictGet_dictSet_self {κ α : Type} [DecidableEq κ]
    (l : List (κ × α)) (k : κ) (v : α) : dictGet (dictSet l k v) k = some v := by
  induction l with
  | nil => simp [dictSet]
  | cons hd tl ih =>
      obtain ⟨k0, v0⟩ := hd
      by_cases h : k = k0 <;> simp [dictSet, h, ih]

@[simp] theorem dictGet_dictPop_self {κ α : Type} [DecidableEq κ]
    (l : List (κ × α)) (k : κ) : dictGet (dictPop l k) k = none := by
  induction l with
  | nil => simp [dictPop]
  | cons hd tl ih =>
      obtain ⟨k0, v0⟩ := hd
      by_cases h : k = k0
      · subst h; simp [dictPop, ih]
      · simp [dictPop, h, ih]

theorem dictGet_dictSet_ne {κ α : Type} [DecidableEq κ]
    (l : List (κ × α)) (k k1 : κ) (v : α) (h : k1 ≠ k) :
    dictGet (dictSet l k v) k1 = dictGet l k1 := by
  induction l with
  | nil => simp [dictSet, h]
  | cons hd tl ih =>
      obtain ⟨k0, v0⟩ := hd
      by_cases h0 : k = k0
      · subst h0; simp [dictSet, h]
      · simp [dictSet, h0]
        by_cases h1 : k1 = k0 <;> simp [h1, ih]

/-- The mutable state of one `CommBase` object that the claims are about. -/
structure CommState where
  comms : List (Nat × CommInfo)
  reply_waitlist : List (Nat × (Bool × Option Nat))
  reply_inbox : List (Nat × ReplySlot)
deriving DecidableEq, Repr

/-- Model of `PICKLE_PROTOCOL = 2`, the starting value of each comm's protocol. -/
def DEFAULT_PICKLE_PROTOCOL : Nat := 2

/-- Model of `pickle.HIGHEST_PROTOCOL` of the local interpreter (the exact value
depends on the Python version; every theorem below only uses it through
`min`). -/
def pickle_HIGHEST_PROTOCOL : Nat := 5

/-- Model of `CommBase.is_open`. -/
def is_open (st : CommState) (comm_id : Option Nat) : Bool :=
  match comm_id with
  | none => decide (0 < st.comms.length)
  | some cid => (dictGet st.comms cid).isSome

/-- Model of `CommBase.get_comm_id_list`. -/
def get_comm_id_list (st : CommState) (comm_id : Option Nat) : List Nat :=
  match comm_id with
  | none => st.comms.map Prod.fst
  | some cid => [cid]

/-- Model of `CommBase._register_comm`: a fresh session starts with the default
protocol and status `'opening'`. -/
def register_comm (st : CommState) (comm_id : Nat) : CommState :=
  { st with comms := dictSet st.comms comm_id ⟨DEFAULT_PICKLE_PROTOCOL, Status.opening⟩ }

/-- Model of `CommBase._comm_close`: `del self._comms[comm_id]`. -/
def comm_close (st : CommState) (comm_id : Nat) : CommState :=
  { st with comms := dictPop st.comms comm_id }

/-- Model of `CommBase._set_pickle_protocol`, the handler of the reserved
`_set_pickle_protocol` handshake call: lowers the protocol to
`min(protocol, pickle.HIGHEST_PROTOCOL)` and flips the calling comm's
status to `'ready'`.  (Python would raise `KeyError` on an unregistered
comm id; the theorems only use the function under a membership
hypothesis.) -/
def set_pickle_protocol (st : CommState) (calling_comm_id : Nat) (protocol : Nat) :
    CommState :=
  let protocol := min protocol pickle_HIGHEST_PROTOCOL
  match dictGet st.comms calling_comm_id with
  | none => st
  | some info =>
      let ready_info : CommInfo :=
        { info with pickle_protocol := protocol, status := Status.ready }
      { st with comms := dictSet st.comms calling_comm_id ready_info }

/-- The `spyder_msg_type`, `content` and buffer data of a message, for the
two message kinds `_send_message` is called with. -/
inductive MsgBody where
  | remoteCall (call_dict : CallDict) (call_data : CallBuffer)
  | remoteCallReply (content : ReplyContent) (data : PyData)
deriving DecidableEq, Repr

/-- A message handed to `comm.send` by `_send_message`: the target comm,
the message body, and the pickle protocol its buffer was encoded with
(the `python_version` diagnostic field is omitted). -/
structure SentMsg where
  comm_id : Nat
  body : MsgBody
  pickle_protocol : Nat
deriving DecidableEq, Repr

/-- Traceback frame contributed by `_send_message` when it raises. -/
def frame_send_message : String := "_send_message"

/-- Traceback frame contributed by `_set_call_return_value`. -/
def frame_set_call_return_value : String := "_set_call_return_value"

/-- Traceback frame contributed by `_remote_callback`. -/
def frame_remote_callback : String := "_remote_callback"

/-- Traceback frame contributed by `_handle_remote_call` (the catch
site; a traceback captured there always starts with this frame). -/
def frame_handle_remote_call : String := "_handle_remote_call"

/-- Model of `CommBase._send_message`: raises `CommError` when the comm is not
open, otherwise hands one message per target comm to `comm.send`, each
encoded with that comm's negotiated pickle protocol. -/
def send_message (st : CommState) (body : MsgBody) (comm_id : Option Nat) :
    Except PyException (List SentMsg) :=
  if is_open st comm_id then
    Except.ok ((get_comm_id_list st comm_id).map fun cid =>
      ⟨cid, body, ((dictGet st.comms cid).map CommInfo.pickle_protocol).getD 0⟩)
  else
    Except.error ⟨ErrKind.commError, "The comm is not connected.", [frame_send_message]⟩

/-- A remote call handler registered in `self._remote_call_handlers`:
takes the decoded `call_args` and `call_kwargs` and either returns a value
or raises. -/
def HandlerFn : Type := List PyData → List (String × PyData) → Except PyException PyData

/-- Model of `CommBase._remote_callback`: look the name up in
`self._remote_call_handlers` and invoke the handler; raise
`CommError("No such spyder call type: ...")` when the name is absent.
An exception propagating out of the handler (or the `raise` here) gains
this function's traceback frame. -/
def remote_callback (handlers : List (String × HandlerFn)) (call_name : String)
    (call_args : List PyData) (call_kwargs : List (String × PyData)) :
    Except PyException PyData :=
  match dictGet handlers call_name with
  | some handler =>
      match handler call_args call_kwargs with
      | Except.ok v => Except.ok v
      | Except.error e => Except.error { e with tb := frame_remote_callback :: e.tb }
  | none =>
      Except.error ⟨ErrKind.commError, "No such spyder call type: " ++ call_name,
        [frame_remote_callback]⟩

/-- Model of `CommsErrorWrapper(call_name, call_id)` evaluated at the catch site in
`_handle_remote_call`: `sys.exc_info()` yields the exception being
handled, and `traceback.extract_tb` yields its frames, starting with the
catch site's own frame. -/
def CommsErrorWrapper.capture (call_name : String) (call_id : Nat)
    (e : PyException) : CommsErrorWrapper :=
  ⟨call_name, call_id, e.kind, e.msg, frame_handle_remote_call :: e.tb⟩

/-- Model of `CommBase._set_call_return_value`: replies only when the call's
settings asked for a reply (`send_reply`) or the call errored; the reply
content carries `is_error`, `call_id` and `call_name`, and the buffer
carries the data. -/
def set_call_return_value (st : CommState) (calling_comm_id : Option Nat)
    (call_dict : CallDict) (data : PyData) (is_error : Bool) :
    Except PyException (List SentMsg) :=
  let send_reply := call_dict.settings.send_reply.getD false
  if !send_reply && !is_error then
    Except.ok []
  else
    let content : ReplyContent := ⟨is_error, call_dict.call_id, call_dict.call_name⟩
    match send_message st (MsgBody.remoteCallReply content data) calling_comm_id with
    | Except.ok msgs => Except.ok msgs
    | Except.error e => Except.error { e with tb := frame_set_call_return_value :: e.tb }

/-- Model of `CommBase._handle_remote_call`: a call whose buffer failed to unpickle
is dropped after a debug log; otherwise the handler runs and its return
value is sent back via `_set_call_return_value`, and any exception raised
inside the `try` block (by the handler, the name lookup, or the sending of
the success reply) is captured in a `CommsErrorWrapper` and sent back as an
error reply.  The result is the list of messages handed to the transport,
or the exception that propagated out (only possible if the error reply
itself could not be sent). -/
def handle_remote_call (st : CommState) (calling_comm_id : Option Nat)
    (handlers : List (String × HandlerFn)) (call_dict : CallDict)
    (buffer : CallBuffer) (load_exception : Option Nat) :
    Except PyException (List SentMsg) :=
  if load_exception.isSome then
    Except.ok []
  else
    match remote_callback handlers call_dict.call_name
        buffer.call_args buffer.call_kwargs with
    | Except.ok return_value =>
        match set_call_return_value st calling_comm_id call_dict return_value false with
        | Except.ok msgs => Except.ok msgs
        | Except.error e =>
            let exc_infos :=
              CommsErrorWrapper.capture call_dict.call_name call_dict.call_id e
            set_call_return_value st calling_comm_id call_dict
              (PyData.wrapper exc_infos) true
    | Except.error e =>
        let exc_infos :=
          CommsErrorWrapper.capture call_dict.call_name call_dict.call_id e
        set_call_return_value st calling_comm_id call_dict
          (PyData.wrapper exc_infos) true

/-- Model of `CommBase._register_call`: track the call in `self._reply_waitlist`
only when it is blocking or carries a callback. -/
def register_call (st : CommState) (call_dict : CallDict)
    (callback : Option Nat) : CommState :=
  let blocking := call_dict.settings.blocking.getD false
  if blocking || callback.isSome then
    { st with reply_waitlist :=
        dictSet st.reply_waitlist call_dict.call_id (blocking, callback) }
  else
    st

/-- What `_handle_remote_call_reply` did besides updating the state:
`asyncErrored` is the buffer passed to `_async_error` (if it was called),
`callbackRun` is the callback invoked together with its argument, and
`loggedUnexpected` records the "unexpected reply" debug log. -/
structure ReplyResult where
  state : CommState
  asyncErrored : Option PyData
  callbackRun : Option (Nat × PyData)
  loggedUnexpected : Bool
deriving DecidableEq, Repr

/-- Model of `CommBase._handle_remote_call_reply`.  A reply whose buffer failed to
unpickle is turned into an error reply carrying `(load_exception, [])`.
An unmatched reply mutates nothing: an error goes to `_async_error`, the
rest is logged.  A matched reply pops its waitlist entry; an error for a
non-blocking call goes to `_async_error`, a success value feeds the
callback if one was registered, and a blocking call's reply is stored in
`self._reply_inbox` for the waiting caller. -/
def handle_remote_call_reply (st : CommState) (content : ReplyContent)
    (buffer : PyData) (load_exception : Option Nat) : ReplyResult :=
  let pair :=
    match load_exception with
    | some e => (PyData.excPair e [], true)
    | none => (buffer, content.is_error)
  let buf := pair.1
  let is_error := pair.2
  match dictGet st.reply_waitlist content.call_id with
  | none =>
      if is_error then ⟨st, some buf, none, false⟩
      else ⟨st, none, none, true⟩
  | some (blocking, callback) =>
      let st1 := { st with reply_waitlist := dictPop st.reply_waitlist content.call_id }
      if is_error && !blocking then ⟨st1, some buf, none, false⟩
      else
        let cbRun :=
          if callback.isSome && !is_error then callback.map (fun c => (c, buf))
          else none
        let st2 :=
          if blocking then
            { st1 with reply_inbox :=
                dictSet st1.reply_inbox content.call_id ⟨is_error, buf, content⟩ }
          else st1
        ⟨st2, none, cbRun, false⟩

/-- Model of `CommsErrorWrapper.raise_error`: `raise self.etype(self)` raises an
exception of the captured class whose single argument is the wrapper, so
its `str` is `str(self.error)` — the original message — and the remote
trace stays reachable through the wrapper argument. -/
def CommsErrorWrapper.raise_error (w : CommsErrorWrapper) : PyException :=
  ⟨w.etype, w.error, w.tb⟩

/-- Model of `CommBase._sync_error`: `error_wrapper.raise_error()`.  The attribute
lookup succeeds only on a `CommsErrorWrapper`; on any other object (such
as the `(load_exception, [])` tuple) Python raises `AttributeError`
instead. -/
def sync_error : PyData → PyException
  | PyData.wrapper w => w.raise_error
  | PyData.excPair _ _ =>
      ⟨ErrKind.attributeError, "tuple object has no attribute raise_error", []⟩
  | PyData.obj _ =>
      ⟨ErrKind.attributeError, "object has no attribute raise_error", []⟩

/-- What the tail of `_get_call_return_value` produces for the blocking
caller once `_wait_reply` has returned: the replied value, a synchronously
raised exception, or Python's `KeyError` when the inbox has no slot for
the call id (unreachable after a successful wait). -/
inductive WaitedResult where
  | value (v : PyData)
  | raised (e : PyException)
  | keyError
deriving DecidableEq, Repr

/-- The tail of `CommBase._get_call_return_value` after `_wait_reply`:
`reply = self._reply_inbox.pop(call_id)`, then either return the value or
re-raise through `_sync_error`. -/
def consume_reply (st : CommState) (call_id : Nat) : CommState × WaitedResult :=
  match dictGet st.reply_inbox call_id with
  | none => (st, WaitedResult.keyError)
  | some reply =>
      let st1 := { st with reply_inbox := dictPop st.reply_inbox call_id }
      if reply.is_error then (st1, WaitedResult.raised (sync_error reply.value))
      else (st1, WaitedResult.value reply.value)

/-- Outcome of `RemoteCall.__call__` up to the point where a blocking call
starts waiting.  The carried `CommState` is the caller's state when the
outcome is produced, so `raisedCommError st ...` and `droppedClosed st`
with `st` the input state say that nothing was registered or sent. -/
inductive CallSendOutcome where
  | raisedCommError (st : CommState) (msg : String)
  | droppedClosed (st : CommState)
  | raised (st : CommState) (e : PyException)
  | pending (st : CommState) (msgs : List SentMsg) (call_dict : CallDict)
      (blocking : Bool)
deriving DecidableEq, Repr

/-- Model of `RemoteCall.__call__` followed by the sending half of
`_get_call_return_value`: compute `blocking`, force
`settings['send_reply'] = blocking or callback is not None`, build the
call dict; on a closed target raise `CommError` when blocking and return
silently otherwise, both before any registration or send; on an open
target register the call and send the envelope.  (`call_id` is the
freshly generated uuid; uuid4 generation is abstracted into an
argument.)  A non-blocking call then returns `None` immediately and a
blocking one waits — both continuations live in the theorems, via
`consume_reply`. -/
def remoteCall_call (st : CommState) (name : String) (comm_id : Option Nat)
    (callback : Option Nat) (settings : Settings) (call_id : Nat)
    (args : List PyData) (kwargs : List (String × PyData)) : CallSendOutcome :=
  let blocking := settings.blocking.getD false
  let settings := { settings with send_reply := some (blocking || callback.isSome) }
  let call_dict : CallDict := ⟨name, call_id, settings⟩
  let call_data : CallBuffer := ⟨args, kwargs⟩
  if !(is_open st comm_id) then
    if blocking then CallSendOutcome.raisedCommError st "The comm is not connected."
    else CallSendOutcome.droppedClosed st
  else
    let st1 := register_call st call_dict callback
    match send_message st1 (MsgBody.remoteCall call_dict call_data) comm_id with
    | Except.error e => CallSendOutcome.raised st1 e
    | Except.ok msgs => CallSendOutcome.pending st1 msgs call_dict blocking

@[simp] theorem dictGet_dictPop {κ α : Type} [DecidableEq κ]
    (l : List (κ × α)) (k c : κ) :
    dictGet (dictPop l k) c = if c = k then none else dictGet l c := by
  induction l with
  | nil => by_cases hc : c = k <;> simp [dictPop, hc]
  | cons hd tl ih =>
      obtain ⟨k0, v0⟩ := hd
      rw [dictPop]
      by_cases hk : k = k0
      · subst hk
        rw [if_pos rfl, ih, dictGet_cons]
        by_cases hc : c = k <;> simp [hc]
      · rw [if_neg hk, dictGet_cons, dictGet_cons, ih]
        by_cases hc : c = k0
        · have hck : ¬ c = k := fun h => hk (h.symm.trans hc)
          have hk0 : ¬ k0 = k := fun h => hk h.symm
          simp [hc, hck, hk0]
        · simp [hc]

/-- C3: `_register_call` creates a waitlist entry iff the call is blocking
or carries a callback; with neither, registration is a no-op (the state is
unchanged), and a later reply carrying that call id can never be matched:
handling it leaves the state untouched and runs no callback. -/
theorem register_call_tracks_iff (st : CommState) (cd : CallDict) (cb : Option Nat) :
    ((cd.settings.blocking.getD false || cb.isSome) = true →
      (register_call st cd cb).reply_waitlist
          = dictSet st.reply_waitlist cd.call_id (cd.settings.blocking.getD false, cb) ∧
      dictGet (register_call st cd cb).reply_waitlist cd.call_id
          = some (cd.settings.blocking.getD false, cb) ∧
      (register_call st cd cb).comms = st.comms ∧
      (register_call st cd cb).reply_inbox = st.reply_inbox) ∧
    ((cd.settings.blocking.getD false || cb.isSome) = false →
      register_call st cd cb = st) ∧
    ((cd.settings.blocking.getD false || cb.isSome) = false →
      dictGet st.reply_waitlist cd.call_id = none →
      ∀ (content : ReplyContent) (buffer : PyData) (exc : Option Nat),
        content.call_id = cd.call_id →
          (handle_remote_call_reply (register_call st cd cb) content buffer exc).state
            = register_call st cd cb ∧
          (handle_remote_call_reply (register_call st cd cb) content buffer exc).callbackRun
            = none) := by
  refine ⟨fun htrack => ?_, fun hno => ?_, fun hno habs content buffer exc hid => ?_⟩
  · refine ⟨?_, ?_, ?_, ?_⟩ <;> simp [register_call, htrack]
  · simp [register_call, hno]
  · have hreg : register_call st cd cb = st := by simp [register_call, hno]
    rw [hreg]
    rw [← hid] at habs
    cases exc with
    | none =>
        by_cases hie : content.is_error <;>
          simp [handle_remote_call_reply, habs, hie]
    | some e => simp [handle_remote_call_reply, habs]

/-- C4: at-most-once resolution per call id.  After any reply for
`content.call_id` is processed, the waitlist no longer holds that id (the
first matching reply pops the entry); and a reply whose id is not in the
waitlist is treated as unmatched: the state is unchanged, no callback runs,
an error reply goes to `_async_error` and a non-error reply is merely
logged and discarded. -/
theorem reply_at_most_once (st : CommState) (content : ReplyContent)
    (buffer : PyData) (exc : Option Nat) :
    dictGet (handle_remote_call_reply st content buffer exc).state.reply_waitlist
      content.call_id = none ∧
    (dictGet st.reply_waitlist content.call_id = none →
      (handle_remote_call_reply st content buffer exc).state = st ∧
      (handle_remote_call_reply st content buffer exc).callbackRun = none ∧
      (let is_error := match exc with | some _ => true | none => content.is_error
       let buf := match exc with | some e => PyData.excPair e [] | none => buffer
       if is_error then
         (handle_remote_call_reply st content buffer exc).asyncErrored = some buf ∧
         (handle_remote_call_reply st content buffer exc).loggedUnexpected = false
       else
         (handle_remote_call_reply st content buffer exc).asyncErrored = none ∧
         (handle_remote_call_reply st content buffer exc).loggedUnexpected = true)) := by
  constructor
  · rcases hw : dictGet st.reply_waitlist content.call_id with _ | ⟨blocking, callback⟩
    · cases exc with
      | none =>
          by_cases hie : content.is_error <;>
            simp [handle_remote_call_reply, hw, hie]
      | some e => simp [handle_remote_call_reply, hw]
    · cases exc with
      | none =>
          by_cases hie : content.is_error <;> by_cases hb : blocking <;>
            simp [handle_remote_call_reply, hw, hie, hb]
      | some e =>
          by_cases hb : blocking <;>
            simp [handle_remote_call_reply, hw, hb]
  · intro habs
    cases exc with
    | none =>
        by_cases hie : content.is_error <;>
          simp [handle_remote_call_reply, habs, hie]
    | some e => simp [handle_remote_call_reply, habs]

/-- C5: invoking a `RemoteCall` on a target that is not open raises
`CommError` when blocking and silently returns when not, in both cases
before anything is registered or sent (the outcome carries the unchanged
input state and no messages). -/
theorem call_closed_channel (st : CommState) (name : String) (comm_id : Option Nat)
    (cb : Option Nat) (settings : Settings) (call_id : Nat)
    (args : List PyData) (kwargs : List (String × PyData))
    (hclosed : is_open st comm_id = false) :
    (settings.blocking.getD false = true →
      remoteCall_call st name comm_id cb settings call_id args kwargs
        = CallSendOutcome.raisedCommError st "The comm is not connected.") ∧
    (settings.blocking.getD false = false →
      remoteCall_call st name comm_id cb settings call_id args kwargs
        = CallSendOutcome.droppedClosed st) := by
  constructor
  · intro hb; simp [remoteCall_call, hclosed, hb]
  · intro hb; simp [remoteCall_call, hclosed, hb]

/-- C9: an incoming call whose buffer failed to unpickle is dropped after
the debug log: no handler is consulted (the result does not depend on
`handlers` or `buffer`), no reply of any kind is produced, and
`_handle_remote_call` touches no engine state. -/
theorem call_decode_failure_dropped (st : CommState) (calling_comm_id : Option Nat)
    (handlers : List (String × HandlerFn)) (cd : CallDict)
    (buffer : CallBuffer) (e : Nat) :
    handle_remote_call st calling_comm_id handlers cd buffer (some e)
      = Except.ok [] := rfl

/-- C10: a reply whose buffer failed to unpickle is not dropped: it is
processed with `is_error` forced to `true` (whatever the envelope said)
and the carried value replaced by the pair `(load_exception, [])`, and it
then follows the normal error-reply routing — `_async_error` when
unmatched or matched to a non-blocking call, the blocking inbox when
matched to a blocking call. -/
theorem reply_decode_failure_is_error (st : CommState) (content : ReplyContent)
    (buffer : PyData) (e : Nat) :
    (dictGet st.reply_waitlist content.call_id = none →
      handle_remote_call_reply st content buffer (some e)
        = ⟨st, some (PyData.excPair e []), none, false⟩) ∧
    (∀ blocking callback,
      dictGet st.reply_waitlist content.call_id = some (blocking, callback) →
      (blocking = false →
        handle_remote_call_reply st content buffer (some e)
          = ⟨⟨st.comms, dictPop st.reply_waitlist content.call_id, st.reply_inbox⟩,
             some (PyData.excPair e []), none, false⟩) ∧
      (blocking = true →
        handle_remote_call_reply st content buffer (some e)
          = ⟨⟨st.comms, dictPop st.reply_waitlist content.call_id,
              dictSet st.reply_inbox content.call_id
                ⟨true, PyData.excPair e [], content⟩⟩,
             none, none, false⟩)) := by
  constructor
  · intro habs
    simp [handle_remote_call_reply, habs]
  · intro blocking callback hfound
    constructor
    · intro hb; subst hb
      simp [handle_remote_call_reply, hfound]
    · intro hb; subst hb
      simp [handle_remote_call_reply, hfound]

/-- C7 counterexample: dispatching a call whose name is not registered
raises a plain `CommError` — the same error class the code uses for
operations on a closed channel — not an error of a distinct
`NoSuchCall` kind. -/
theorem no_such_call_is_commError :
    remote_callback [] "foo" [] []
      = Except.error ⟨ErrKind.commError, "No such spyder call type: foo",
          [frame_remote_callback]⟩ := by
  rfl

/-- C7 (amended): dispatching a call whose name is not registered fails
with a `CommError` whose message names the missing call, and that error is
what is captured in the `CommsErrorWrapper` and sent back to the caller as
an error reply. -/
theorem no_such_call_error_sent_back (st : CommState) (rcid : Nat)
    (handlers : List (String × HandlerFn)) (cd : CallDict) (buffer : CallBuffer)
    (hopen : is_open st (some rcid) = true)
    (habsent : dictGet handlers cd.call_name = none) :
    handle_remote_call st (some rcid) handlers cd buffer none
      = Except.ok [⟨rcid,
          MsgBody.remoteCallReply ⟨true, cd.call_id, cd.call_name⟩
            (PyData.wrapper ⟨cd.call_name, cd.call_id, ErrKind.commError,
              "No such spyder call type: " ++ cd.call_name,
              [frame_handle_remote_call, frame_remote_callback]⟩),
          ((dictGet st.comms rcid).map CommInfo.pickle_protocol).getD 0⟩] := by
  simp [handle_remote_call, remote_callback, habsent, CommsErrorWrapper.capture,
    set_call_return_value, send_message, hopen, get_comm_id_list]

/-- C8: executing the `_set_pickle_protocol` handshake call lowers the
session's codec version to `min(remote_requested, pickle.HIGHEST_PROTOCOL)`
and flips the session from `opening` to `ready`; and `ready` is reached
through no other operation of the engine — registering a comm creates it
`opening`, reply handling, call registration and inbox consumption leave
`_comms` untouched, and closing a comm only removes sessions. -/
theorem handshake_negotiates_and_readies (st : CommState) (cid : Nat)
    (proto : Nat) (info : CommInfo)
    (hmem : dictGet st.comms cid = some info)
    (hopening : info.status = Status.opening) :
    dictGet (set_pickle_protocol st cid proto).comms cid
        = some ⟨min proto pickle_HIGHEST_PROTOCOL, Status.ready⟩ ∧
    (∀ c ncid i, dictGet (register_comm st ncid).comms c = some i →
        i.status = Status.ready →
        ∃ i0, dictGet st.comms c = some i0 ∧ i0.status = Status.ready) ∧
    (∀ content buffer exc,
        (handle_remote_call_reply st content buffer exc).state.comms = st.comms) ∧
    (∀ cd cb, (register_call st cd cb).comms = st.comms) ∧
    (∀ call_id, (consume_reply st call_id).1.comms = st.comms) ∧
    (∀ c ccid i, dictGet (comm_close st ccid).comms c = some i →
        ∃ i0, dictGet st.comms c = some i0 ∧ i0 = i) := by
  refine ⟨?_, ?_, ?_, ?_, ?_, ?_⟩
  · simp [set_pickle_protocol, hmem]
  · intro c ncid i hget hready
    by_cases hc : c = ncid
    · subst hc
      rw [register_comm] at hget
      simp only [dictGet_dictSet_self] at hget
      cases hget
      cases hready
    · rw [register_comm] at hget
      rw [dictGet_dictSet_ne _ _ _ _ hc] at hget
      exact ⟨i, hget, hready⟩
  · intro content buffer exc
    rcases hw : dictGet st.reply_waitlist content.call_id with _ | ⟨blocking, callback⟩
    · cases exc with
      | none =>
          by_cases hie : content.is_error <;>
            simp [handle_remote_call_reply, hw, hie]
      | some e => simp [handle_remote_call_reply, hw]
    · cases exc with
      | none =>
          by_cases hie : content.is_error <;> by_cases hb : blocking <;>
            simp [handle_remote_call_reply, hw, hie, hb]
      | some e =>
          by_cases hb : blocking <;>
            simp [handle_remote_call_reply, hw, hb]
  · intro cd cb
    by_cases htrack : (cd.settings.blocking.getD false || cb.isSome) = true <;>
      simp [register_call, htrack]
  · intro call_id
    rcases hr : dictGet st.reply_inbox call_id with _ | reply
    · simp [consume_reply, hr]
    · by_cases hie : reply.is_error <;> simp [consume_reply, hr, hie]
  · intro c ccid i hget
    rw [comm_close] at hget
    simp only [dictGet_dictPop] at hget
    by_cases hc : c = ccid
    · simp [hc] at hget
    · rw [if_neg hc] at hget
      exact ⟨i, hget, rfl⟩

/-- C6: for a call whose payload decoded, a handler failure always
produces an error reply, whatever the `send_reply` setting says, while a
handler success produces a reply exactly when `send_reply` is set in the
call's settings. -/
theorem reply_asymmetry (st : CommState) (rcid : Nat)
    (handlers : List (String × HandlerFn)) (cd : CallDict) (buffer : CallBuffer)
    (handler : HandlerFn)
    (hopen : is_open st (some rcid) = true)
    (hfound : dictGet handlers cd.call_name = some handler) :
    (∀ e, handler buffer.call_args buffer.call_kwargs = Except.error e →
      handle_remote_call st (some rcid) handlers cd buffer none
        = Except.ok [⟨rcid,
            MsgBody.remoteCallReply ⟨true, cd.call_id, cd.call_name⟩
              (PyData.wrapper (CommsErrorWrapper.capture cd.call_name cd.call_id
                ⟨e.kind, e.msg, frame_remote_callback :: e.tb⟩)),
            ((dictGet st.comms rcid).map CommInfo.pickle_protocol).getD 0⟩]) ∧
    (∀ v, handler buffer.call_args buffer.call_kwargs = Except.ok v →
      (cd.settings.send_reply.getD false = false →
        handle_remote_call st (some rcid) handlers cd buffer none
          = Except.ok []) ∧
      (cd.settings.send_reply.getD false = true →
        handle_remote_call st (some rcid) handlers cd buffer none
          = Except.ok [⟨rcid,
              MsgBody.remoteCallReply ⟨false, cd.call_id, cd.call_name⟩ v,
              ((dictGet st.comms rcid).map CommInfo.pickle_protocol).getD 0⟩])) := by
  constructor
  · intro e herr
    simp [handle_remote_call, remote_callback, hfound, herr,
      set_call_return_value, send_message, hopen, get_comm_id_list]
  · intro v hok
    constructor
    · intro hsr
      simp [handle_remote_call, remote_callback, hfound, hok,
        set_call_return_value, hsr]
    · intro hsr
      simp [handle_remote_call, remote_callback, hfound, hok,
        set_call_return_value, send_message, hopen, get_comm_id_list, hsr]

/-- C1: the blocking round trip.  A blocking `RemoteCall` on an open,
ready channel registers and sends the call; dispatching it on the remote
side against a handler that returns `v` produces exactly one non-error
reply carrying `v`; handling that reply on the caller's side fills the
inbox slot; and the caller's wait pops the slot and returns `v`
unchanged. -/
theorem blocking_call_returns_value (caller remote : CommState)
    (handlers : List (String × HandlerFn)) (name : String) (cid rcid : Nat)
    (cb : Option Nat) (settings : Settings) (call_id : Nat)
    (args : List PyData) (kwargs : List (String × PyData)) (v : PyData)
    (info : CommInfo) (handler : HandlerFn)
    (hopen : dictGet caller.comms cid = some info)
    (hready : info.status = Status.ready)
    (hblocking : settings.blocking.getD false = true)
    (hfound : dictGet handlers name = some handler)
    (hok : handler args kwargs = Except.ok v)
    (hropen : is_open remote (some rcid) = true) :
    remoteCall_call caller name (some cid) cb settings call_id args kwargs
      = CallSendOutcome.pending
          (register_call caller
            ⟨name, call_id,
              { settings with
                  send_reply := some (settings.blocking.getD false || cb.isSome) }⟩
            cb)
          [⟨cid, MsgBody.remoteCall
              ⟨name, call_id,
                { settings with
                    send_reply := some (settings.blocking.getD false || cb.isSome) }⟩
              ⟨args, kwargs⟩,
            info.pickle_protocol⟩]
          ⟨name, call_id,
            { settings with
                send_reply := some (settings.blocking.getD false || cb.isSome) }⟩
          true ∧
    handle_remote_call remote (some rcid) handlers
        ⟨name, call_id,
          { settings with
              send_reply := some (settings.blocking.getD false || cb.isSome) }⟩
        ⟨args, kwargs⟩ none
      = Except.ok [⟨rcid, MsgBody.remoteCallReply ⟨false, call_id, name⟩ v,
          ((dictGet remote.comms rcid).map CommInfo.pickle_protocol).getD 0⟩] ∧
    (consume_reply
        (handle_remote_call_reply
          (register_call caller
            ⟨name, call_id,
              { settings with
                  send_reply := some (settings.blocking.getD false || cb.isSome) }⟩
            cb)
          ⟨false, call_id, name⟩ v none).state
        call_id).2
      = WaitedResult.value v ∧
    dictGet (consume_reply
        (handle_remote_call_reply
          (register_call caller
            ⟨name, call_id,
              { settings with
                  send_reply := some (settings.blocking.getD false || cb.isSome) }⟩
            cb)
          ⟨false, call_id, name⟩ v none).state
        call_id).1.reply_inbox call_id = none := by
  have hcopen : is_open caller (some cid) = true := by
    simp [is_open, hopen]
  have hw : dictGet (register_call caller
      ⟨name, call_id,
        { settings with send_reply := some (settings.blocking.getD false || cb.isSome) }⟩
      cb).reply_waitlist call_id = some (true, cb) := by
    simp [register_call, hblocking]
  refine ⟨?_, ?_, ?_, ?_⟩
  · simp [remoteCall_call, hcopen, hblocking, send_message, is_open, hopen,
      register_call, get_comm_id_list]
  · simp [handle_remote_call, remote_callback, hfound, hok,
      set_call_return_value, hblocking, send_message, hropen, get_comm_id_list]
  · simp [handle_remote_call_reply, hw, consume_reply]
  · simp [handle_remote_call_reply, hw, consume_reply]

/-- C2: the error round trip.  When the remote handler of a blocking call
raises, the dispatcher sends an error reply carrying the captured
`CommsErrorWrapper`; handling it on the caller's side fills the blocking
inbox slot; and consuming the slot re-raises synchronously an exception of
the captured class with the message text preserved and a non-empty remote
trace. -/
theorem blocking_call_reraises_error (caller remote : CommState)
    (handlers : List (String × HandlerFn)) (name : String) (cid rcid : Nat)
    (cb : Option Nat) (settings : Settings) (call_id : Nat)
    (args : List PyData) (kwargs : List (String × PyData)) (e : PyException)
    (info : CommInfo) (handler : HandlerFn)
    (hopen : dictGet caller.comms cid = some info)
    (hready : info.status = Status.ready)
    (hblocking : settings.blocking.getD false = true)
    (hfound : dictGet handlers name = some handler)
    (herr : handler args kwargs = Except.error e)
    (hropen : is_open remote (some rcid) = true) :
    handle_remote_call remote (some rcid) handlers
        ⟨name, call_id,
          { settings with
              send_reply := some (settings.blocking.getD false || cb.isSome) }⟩
        ⟨args, kwargs⟩ none
      = Except.ok [⟨rcid,
          MsgBody.remoteCallReply ⟨true, call_id, name⟩
            (PyData.wrapper ⟨name, call_id, e.kind, e.msg,
              frame_handle_remote_call :: frame_remote_callback :: e.tb⟩),
          ((dictGet remote.comms rcid).map CommInfo.pickle_protocol).getD 0⟩] ∧
    (consume_reply
        (handle_remote_call_reply
          (register_call caller
            ⟨name, call_id,
              { settings with
                  send_reply := some (settings.blocking.getD false || cb.isSome) }⟩
            cb)
          ⟨true, call_id, name⟩
          (PyData.wrapper ⟨name, call_id, e.kind, e.msg,
            frame_handle_remote_call :: frame_remote_callback :: e.tb⟩)
          none).state
        call_id).2
      = WaitedResult.raised ⟨e.kind, e.msg,
          frame_handle_remote_call :: frame_remote_callback :: e.tb⟩ ∧
    (frame_handle_remote_call :: frame_remote_callback :: e.tb) ≠ [] := by
  have hw : dictGet (register_call caller
      ⟨name, call_id,
        { settings with send_reply := some (settings.blocking.getD false || cb.isSome) }⟩
      cb).reply_waitlist call_id = some (true, cb) := by
    simp [register_call, hblocking]
  refine ⟨?_, ?_, by simp⟩
  · simp [handle_remote_call, remote_callback, hfound, herr,
      CommsErrorWrapper.capture, set_call_return_value, send_message, hropen,
      get_comm_id_list]
  · simp [handle_remote_call_reply, hw, consume_reply, sync_error,
      CommsErrorWrapper.raise_error]

theorem blocking_call_returns_value_witness :
    remoteCall_call ⟨[(1, ⟨2, Status.ready⟩)], [], []⟩ "add" (some 1) none
        ⟨some true, none, none⟩ 42 [PyData.obj 2, PyData.obj 3] []
      = CallSendOutcome.pending
          ⟨[(1, ⟨2, Status.ready⟩)], [(42, (true, none))], []⟩
          [⟨1, MsgBody.remoteCall ⟨"add", 42, ⟨some true, some true, none⟩⟩
              ⟨[PyData.obj 2, PyData.obj 3], []⟩, 2⟩]
          ⟨"add", 42, ⟨some true, some true, none⟩⟩ true ∧
    handle_remote_call ⟨[(2, ⟨3, Status.ready⟩)], [], []⟩ (some 2)
        [("add", fun _ _ => Except.ok (PyData.obj 5))]
        ⟨"add", 42, ⟨some true, some true, none⟩⟩
        ⟨[PyData.obj 2, PyData.obj 3], []⟩ none
      = Except.ok [⟨2, MsgBody.remoteCallReply ⟨false, 42, "add"⟩ (PyData.obj 5), 3⟩] ∧
    (consume_reply (handle_remote_call_reply
        ⟨[(1, ⟨2, Status.ready⟩)], [(42, (true, none))], []⟩
        ⟨false, 42, "add"⟩ (PyData.obj 5) none).state 42).2
      = WaitedResult.value (PyData.obj 5) ∧
    dictGet (consume_reply (handle_remote_call_reply
        ⟨[(1, ⟨2, Status.ready⟩)], [(42, (true, none))], []⟩
        ⟨false, 42, "add"⟩ (PyData.obj 5) none).state 42).1.reply_inbox 42 = none :=
  blocking_call_returns_value ⟨[(1, ⟨2, Status.ready⟩)], [], []⟩
    ⟨[(2, ⟨3, Status.ready⟩)], [], []⟩
    [("add", fun _ _ => Except.ok (PyData.obj 5))] "add" 1 2 none
    ⟨some true, none, none⟩ 42 [PyData.obj 2, PyData.obj 3] [] (PyData.obj 5)
    ⟨2, Status.ready⟩ (fun _ _ => Except.ok (PyData.obj 5)) rfl rfl rfl rfl rfl rfl

theorem blocking_call_reraises_error_witness :
    handle_remote_call ⟨[(2, ⟨3, Status.ready⟩)], [], []⟩ (some 2)
        [("div", fun _ _ =>
            Except.error ⟨ErrKind.exc "ZeroDivisionError", "division by zero", []⟩)]
        ⟨"div", 42, ⟨some true, some true, none⟩⟩
        ⟨[PyData.obj 1, PyData.obj 0], []⟩ none
      = Except.ok [⟨2, MsgBody.remoteCallReply ⟨true, 42, "div"⟩
          (PyData.wrapper ⟨"div", 42, ErrKind.exc "ZeroDivisionError",
            "division by zero",
            [frame_handle_remote_call, frame_remote_callback]⟩), 3⟩] ∧
    (consume_reply (handle_remote_call_reply
        ⟨[(1, ⟨2, Status.ready⟩)], [(42, (true, none))], []⟩
        ⟨true, 42, "div"⟩
        (PyData.wrapper ⟨"div", 42, ErrKind.exc "ZeroDivisionError",
          "division by zero",
          [frame_handle_remote_call, frame_remote_callback]⟩) none).state 42).2
      = WaitedResult.raised ⟨ErrKind.exc "ZeroDivisionError", "division by zero",
          [frame_handle_remote_call, frame_remote_callback]⟩ ∧
    ([frame_handle_remote_call, frame_remote_callback] : List String) ≠ [] :=
  blocking_call_reraises_error ⟨[(1, ⟨2, Status.ready⟩)], [], []⟩
    ⟨[(2, ⟨3, Status.ready⟩)], [], []⟩
    [("div", fun _ _ =>
        Except.error ⟨ErrKind.exc "ZeroDivisionError", "division by zero", []⟩)]
    "div" 1 2 none ⟨some true, none, none⟩ 42 [PyData.obj 1, PyData.obj 0] []
    ⟨ErrKind.exc "ZeroDivisionError", "division by zero", []⟩
    ⟨2, Status.ready⟩
    (fun _ _ =>
      Except.error ⟨ErrKind.exc "ZeroDivisionError", "division by zero", []⟩)
    rfl rfl rfl rfl rfl rfl

theorem register_call_tracks_iff_witness :
    register_call ⟨[], [], []⟩ ⟨"foo", 7, ⟨none, none, none⟩⟩ none = ⟨[], [], []⟩ ∧
    dictGet (register_call ⟨[], [], []⟩ ⟨"foo", 7, ⟨none, none, none⟩⟩
        (some 1)).reply_waitlist 7
      = some (false, some 1) ∧
    (handle_remote_call_reply
        (register_call ⟨[], [], []⟩ ⟨"foo", 7, ⟨none, none, none⟩⟩ none)
        ⟨false, 7, "foo"⟩ (PyData.obj 0) none).state
      = register_call ⟨[], [], []⟩ ⟨"foo", 7, ⟨none, none, none⟩⟩ none :=
  ⟨(register_call_tracks_iff ⟨[], [], []⟩ ⟨"foo", 7, ⟨none, none, none⟩⟩ none).2.1 rfl,
   ((register_call_tracks_iff ⟨[], [], []⟩ ⟨"foo", 7, ⟨none, none, none⟩⟩
      (some 1)).1 rfl).2.1,
   ((register_call_tracks_iff ⟨[], [], []⟩ ⟨"foo", 7, ⟨none, none, none⟩⟩ none).2.2
      rfl rfl ⟨false, 7, "foo"⟩ (PyData.obj 0) none rfl).1⟩

theorem reply_at_most_once_witness :
    dictGet (handle_remote_call_reply ⟨[], [], []⟩ ⟨true, 5, "f"⟩
        (PyData.obj 9) none).state.reply_waitlist 5 = none ∧
    (handle_remote_call_reply ⟨[], [], []⟩ ⟨true, 5, "f"⟩
        (PyData.obj 9) none).state = ⟨[], [], []⟩ ∧
    (handle_remote_call_reply ⟨[], [], []⟩ ⟨true, 5, "f"⟩
        (PyData.obj 9) none).callbackRun = none ∧
    ((handle_remote_call_reply ⟨[], [], []⟩ ⟨true, 5, "f"⟩
        (PyData.obj 9) none).asyncErrored = some (PyData.obj 9) ∧
     (handle_remote_call_reply ⟨[], [], []⟩ ⟨true, 5, "f"⟩
        (PyData.obj 9) none).loggedUnexpected = false) :=
  ⟨(reply_at_most_once ⟨[], [], []⟩ ⟨true, 5, "f"⟩ (PyData.obj 9) none).1,
   (reply_at_most_once ⟨[], [], []⟩ ⟨true, 5, "f"⟩ (PyData.obj 9) none).2 rfl⟩

theorem call_closed_channel_witness :
    (remoteCall_call ⟨[], [], []⟩ "foo" none none ⟨some true, none, none⟩ 7 [] []
      = CallSendOutcome.raisedCommError ⟨[], [], []⟩ "The comm is not connected.") ∧
    (remoteCall_call ⟨[], [], []⟩ "foo" none none ⟨none, none, none⟩ 7 [] []
      = CallSendOutcome.droppedClosed ⟨[], [], []⟩) :=
  ⟨(call_closed_channel ⟨[], [], []⟩ "foo" none none ⟨some true, none, none⟩
      7 [] [] rfl).1 rfl,
   (call_closed_channel ⟨[], [], []⟩ "foo" none none ⟨none, none, none⟩
      7 [] [] rfl).2 rfl⟩

theorem reply_asymmetry_witness :
    handle_remote_call ⟨[(2, ⟨2, Status.ready⟩)], [], []⟩ (some 2)
        [("boom", fun _ _ =>
            Except.error ⟨ErrKind.exc "ValueError", "bad", []⟩)]
        ⟨"boom", 9, ⟨none, none, none⟩⟩ ⟨[], []⟩ none
      = Except.ok [⟨2, MsgBody.remoteCallReply ⟨true, 9, "boom"⟩
          (PyData.wrapper ⟨"boom", 9, ErrKind.exc "ValueError", "bad",
            [frame_handle_remote_call, frame_remote_callback]⟩), 2⟩] ∧
    handle_remote_call ⟨[(2, ⟨2, Status.ready⟩)], [], []⟩ (some 2)
        [("ok", fun _ _ => Except.ok (PyData.obj 1))]
        ⟨"ok", 8, ⟨none, none, none⟩⟩ ⟨[], []⟩ none
      = Except.ok [] ∧
    handle_remote_call ⟨[(2, ⟨2, Status.ready⟩)], [], []⟩ (some 2)
        [("ok", fun _ _ => Except.ok (PyData.obj 1))]
        ⟨"ok", 8, ⟨none, some true, none⟩⟩ ⟨[], []⟩ none
      = Except.ok [⟨2, MsgBody.remoteCallReply ⟨false, 8, "ok"⟩ (PyData.obj 1), 2⟩] :=
  ⟨(reply_asymmetry ⟨[(2, ⟨2, Status.ready⟩)], [], []⟩ 2
      [("boom", fun _ _ => Except.error ⟨ErrKind.exc "ValueError", "bad", []⟩)]
      ⟨"boom", 9, ⟨none, none, none⟩⟩ ⟨[], []⟩
      (fun _ _ => Except.error ⟨ErrKind.exc "ValueError", "bad", []⟩)
      rfl rfl).1 ⟨ErrKind.exc "ValueError", "bad", []⟩ rfl,
   ((reply_asymmetry ⟨[(2, ⟨2, Status.ready⟩)], [], []⟩ 2
      [("ok", fun _ _ => Except.ok (PyData.obj 1))]
      ⟨"ok", 8, ⟨none, none, none⟩⟩ ⟨[], []⟩
      (fun _ _ => Except.ok (PyData.obj 1))
      rfl rfl).2 (PyData.obj 1) rfl).1 rfl,
   ((reply_asymmetry ⟨[(2, ⟨2, Status.ready⟩)], [], []⟩ 2
      [("ok", fun _ _ => Except.ok (PyData.obj 1))]
      ⟨"ok", 8, ⟨none, some true, none⟩⟩ ⟨[], []⟩
      (fun _ _ => Except.ok (PyData.obj 1))
      rfl rfl).2 (PyData.obj 1) rfl).2 rfl⟩

theorem no_such_call_error_sent_back_witness :
    handle_remote_call ⟨[(2, ⟨2, Status.ready⟩)], [], []⟩ (some 2) []
        ⟨"foo", 7, ⟨none, none, none⟩⟩ ⟨[], []⟩ none
      = Except.ok [⟨2, MsgBody.remoteCallReply ⟨true, 7, "foo"⟩
          (PyData.wrapper ⟨"foo", 7, ErrKind.commError,
            "No such spyder call type: foo",
            [frame_handle_remote_call, frame_remote_callback]⟩), 2⟩] :=
  no_such_call_error_sent_back ⟨[(2, ⟨2, Status.ready⟩)], [], []⟩ 2 []
    ⟨"foo", 7, ⟨none, none, none⟩⟩ ⟨[], []⟩ rfl rfl

theorem handshake_negotiates_and_readies_witness :
    dictGet (set_pickle_protocol ⟨[(3, ⟨2, Status.opening⟩)], [], []⟩ 3 7).comms 3
      = some ⟨5, Status.ready⟩ ∧
    (handle_remote_call_reply ⟨[(3, ⟨2, Status.opening⟩)], [], []⟩
        ⟨false, 1, "g"⟩ (PyData.obj 0) none).state.comms
      = [(3, ⟨2, Status.opening⟩)] :=
  ⟨(handshake_negotiates_and_readies ⟨[(3, ⟨2, Status.opening⟩)], [], []⟩ 3 7
      ⟨2, Status.opening⟩ rfl rfl).1,
   (handshake_negotiates_and_readies ⟨[(3, ⟨2, Status.opening⟩)], [], []⟩ 3 7
      ⟨2, Status.opening⟩ rfl rfl).2.2.1 ⟨false, 1, "g"⟩ (PyData.obj 0) none⟩

theorem reply_decode_failure_is_error_witness :
    handle_remote_call_reply ⟨[], [], []⟩ ⟨false, 6, "g"⟩ (PyData.obj 0) (some 4)
      = ⟨⟨[], [], []⟩, some (PyData.excPair 4 []), none, false⟩ ∧
    handle_remote_call_reply ⟨[], [(5, (true, none))], []⟩ ⟨false, 5, "f"⟩
        (PyData.obj 0) (some 3)
      = ⟨⟨[], [], [(5, ⟨true, PyData.excPair 3 [], ⟨false, 5, "f"⟩⟩)]⟩,
         none, none, false⟩ :=
  ⟨(reply_decode_failure_is_error ⟨[], [], []⟩ ⟨false, 6, "g"⟩
      (PyData.obj 0) 4).1 rfl,
   ((reply_decode_failure_is_error ⟨[], [(5, (true, none))], []⟩ ⟨false, 5, "f"⟩
      (PyData.obj 0) 3).2 true none rfl).2 rfl⟩
